import Mathlib

/-!
Shallow embedding of the stream-negotiation core of src/pyhap/_camera.py
(class CameraAccessory) together with the TLV8 codec it uses.

Bytes are modelled as Nat (values kept below 256 by the operations that
produce them) and byte strings as List Nat.  Base64 framing
(pyhap.util.toBase64Str and base64ToBytes) is an external bijective
transport wrapper and is elided: the handlers here consume and produce the
underlying TLV byte sequences directly.

The TLV codec itself (module pyhap/tlv) is imported by _camera.py but is
not part of the sources under src/, so it is modelled from the spec,
section 4.1.  Everything else is translated from src/pyhap/_camera.py.

Python runtime failures (KeyError on dict indexing, UnboundLocalError on a
read of a never-assigned local, TypeError from struct.unpack on None,
struct.error on a wrong-sized buffer, IndexError on b[0] of an empty byte
string) are modelled by the PyErr type.  A handler returns the state it had
produced at the moment of the raise together with the error, so an
exception escaping a setter callback is visible as a some-error result.
-/

namespace Camera

/-- Modelled from the spec, section 4.1: the fragmentation loop of the TLV8
encoder of the external pyhap/tlv module (not under src/).  A value longer
than 255 bytes is split into consecutive 255-byte chunks plus one final
chunk holding the remainder, emitted even when the remainder is empty.  The
first argument is fuel, instantiated with the value length, which makes the
recursion structural and hence kernel-reducible. -/
def tlvFragChunks : Nat → Nat → List Nat → List Nat
  | 0, t, v => t :: v.length :: v
  | fuel + 1, t, v =>
    if 255 < v.length then (t :: 255 :: v.take 255) ++ tlvFragChunks fuel t (v.drop 255)
    else if v.length = 255 then (t :: 255 :: v) ++ [t, 0]
    else t :: v.length :: v

/-- Modelled from the spec, section 4.1: encoding of a single (type, value)
pair.  A value of at most 255 bytes becomes one type-length-value entry;
a longer value is fragmented. -/
def tlvEncodePair (t : Nat) (v : List Nat) : List Nat :=
  if v.length ≤ 255 then t :: v.length :: v else tlvFragChunks v.length t v

/-- Modelled from the spec, section 4.1: tlv.encode, the concatenation of
the encodings of the pairs in input order. -/
def tlvEncode (pairs : List (Nat × List Nat)) : List Nat :=
  (pairs.map fun p => tlvEncodePair p.1 p.2).flatten

/-- Modelled from the spec, section 4.1: starting a new logical entry
overwrites any prior entry of the same type (mapping semantics). -/
def upsert (m : List (Nat × List Nat)) (t : Nat) (v : List Nat) :
    List (Nat × List Nat) :=
  m.filter (fun p => !(p.1 == t)) ++ [(t, v)]

/-- Modelled from the spec, section 4.1: a fragment continuation appends its
value to the open entry of the same type. -/
def appendFrag (m : List (Nat × List Nat)) (t : Nat) (v : List Nat) :
    List (Nat × List Nat) :=
  m.map fun p => if p.1 = t then (t, p.2 ++ v) else p

/-- Modelled from the spec, section 4.1: the decode scan.  It keeps the
previous entry type and length; a new entry whose type equals the previous
type while the previous length was exactly 255 is a fragment continuation,
otherwise it begins a new logical entry.  A declared length exceeding the
remaining bytes is a malformed-input failure.  The first argument is fuel,
instantiated with the buffer length (every step consumes at least two
bytes, so the fuel suffices and the fuel-exhaustion arm is unreachable
from tlvDecode). -/
def tlvDecodeLoop : Nat → List Nat → List (Nat × List Nat) → Option (Nat × Nat) →
    Option (List (Nat × List Nat))
  | _, [], m, _ => some m
  | _ + 1, [_], _, _ => none
  | 0, _ :: _, _, _ => none
  | fuel + 1, t :: l :: rest, m, prev =>
    if l ≤ rest.length then
      let v := rest.take l
      let m1 :=
        match prev with
        | some q => if q.1 = t ∧ q.2 = 255 then appendFrag m t v else upsert m t v
        | none => upsert m t v
      tlvDecodeLoop fuel (rest.drop l) m1 (some (t, l))
    else none

/-- Modelled from the spec, section 4.1: tlv.decode. -/
def tlvDecode (bs : List Nat) : Option (List (Nat × List Nat)) :=
  tlvDecodeLoop bs.length bs [] none

/-- Lookup in a decoded TLV mapping, the model of indexing the dict that
tlv.decode returns (objs.get / objs[k] in the source). -/
def tget (m : List (Nat × List Nat)) (t : Nat) : Option (List Nat) :=
  match m with
  | [] => none
  | p :: rest => if p.1 = t then some p.2 else tget rest t

/-- Python runtime failures that can escape the handlers in _camera.py. -/
inductive PyErr where
  | keyError
  | unboundLocal
  | typeError
  | structError
  | indexError
  deriving DecidableEq

instance {ε α : Type} [DecidableEq ε] [DecidableEq α] : DecidableEq (Except ε α) :=
  fun a b =>
    match a, b with
    | Except.ok x, Except.ok y =>
      if h : x = y then isTrue (by rw [h])
      else isFalse (fun hh => h (Except.ok.inj hh))
    | Except.error x, Except.error y =>
      if h : x = y then isTrue (by rw [h])
      else isFalse (fun hh => h (Except.error.inj hh))
    | Except.ok _, Except.error _ => isFalse (fun hh => Except.noConfusion hh)
    | Except.error _, Except.ok _ => isFalse (fun hh => Except.noConfusion hh)

/-- struct.unpack of a little-endian unsigned 16-bit value (format <H in
the source); struct.error on a buffer that is not exactly two bytes. -/
def unpackLEH (bs : List Nat) : Except PyErr Nat :=
  match bs with
  | [a, b] => Except.ok (a + 256 * b)
  | _ => Except.error PyErr.structError

/-- struct.unpack of a single unsigned byte (format <B in the source). -/
def unpackLEB (bs : List Nat) : Except PyErr Nat :=
  match bs with
  | [a] => Except.ok a
  | _ => Except.error PyErr.indexError

/-- struct.pack of a little-endian unsigned 16-bit value (format <H). -/
def packLEH (n : Nat) : List Nat :=
  [n % 256, n / 256 % 256]

/-- b[0] on a byte string: IndexError when empty. -/
def byte0 (bs : List Nat) : Except PyErr Nat :=
  match bs with
  | [] => Except.error PyErr.indexError
  | a :: _ => Except.ok a

/-- Python truthiness of objs.get(k): absent keys give None and an empty
byte string is falsy, so both are treated as not-present by the bodies of
the form `x = objs.get(K)` followed by `if x:` in the source. -/
def truthyGet (m : List (Nat × List Nat)) (t : Nat) : Option (List Nat) :=
  match tget m t with
  | some [] => none
  | some v => some v
  | none => none

/-- CameraAccessory.NO_SRTP, the fixed configuration value for no SRTP
(source line 193). -/
def NO_SRTP : List Nat := [1, 1, 2, 2, 0, 3, 0]

/-- One session record, the dict stored in self.sessions by set_endpoints.
The process key is absent until _start_stream attaches a handle, modelled
as an Option over an abstract process id. -/
structure SessionRec where
  address : List Nat
  video_port : Nat
  video_srtp_key : List Nat
  video_srtp_salt : List Nat
  video_ssrc : List Nat
  audio_port : Nat
  audio_srtp_key : List Nat
  audio_srtp_salt : List Nat
  audio_ssrc : List Nat
  process : Option Nat
  deriving DecidableEq

/-- The keyword arguments of the FFMPEG_CMD.format call of _start_stream
(source lines 458 to 470), minus the constant camera_source.  The
FFMPEG_CMD template (source lines 196 to 202) contains no fps and no
video_ssrc placeholder: it hard-codes -framerate 20 and -ssrc 1, so the
fps and video_ssrc arguments are evaluated here (their evaluation can
raise, and the fps local is the one clamped at source line 456) and then
discarded by format. -/
structure FfmpegParams where
  address : List Nat
  video_port : Nat
  video_srtp_key : List Nat
  video_ssrc : Nat
  fps : Nat
  width : Nat
  height : Nat
  bitrate : Nat
  local_video_port : Nat
  deriving DecidableEq

/-- The content of the ffmpeg command string actually handed to the
media-sender collaborator (subprocess.Popen, source line 474): the
template placeholders width, height, bitrate, video_srtp_key, address,
video_port and local_video_port filled from the keyword arguments,
together with the frame rate 20 and the synchronization source 1 that the
template hard-codes. -/
structure FfmpegCmd where
  width : Nat
  height : Nat
  framerate : Nat
  ssrc : Nat
  bitrate : Nat
  video_srtp_key : List Nat
  address : List Nat
  video_port : Nat
  local_video_port : Nat
  deriving DecidableEq

/-- FFMPEG_CMD.format (source lines 458 to 470): fill the placeholders of
the template from the keyword arguments.  The fps and video_ssrc
arguments have no placeholder in the template and are discarded in favor
of the hard-coded -framerate 20 and -ssrc 1. -/
def formatCmd (k : FfmpegParams) : FfmpegCmd :=
  { width := k.width
    height := k.height
    framerate := 20
    ssrc := 1
    bitrate := k.bitrate
    video_srtp_key := k.video_srtp_key
    address := k.address
    video_port := k.video_port
    local_video_port := k.local_video_port }

/-- The mutable state of a CameraAccessory instance.  published_status and
setup_response model the values pushed to the StreamingStatus and
SetupEndpoints characteristics of the external capability-object model;
error_log models the logger.error calls of the selected-configuration
handler; next_pid and live model the external process collaborator: spawn
returns the fresh id next_pid and adds it to live, kill removes an id from
live; last_cmd records the command content most recently handed to the
collaborator. -/
structure CameraState where
  streaming_status : List Nat
  support_srtp : Bool
  stream_address : List Nat
  stream_address_isv6 : Nat
  sessions : List (List Nat × SessionRec)
  selected_config : Option (List Nat)
  setup_response : Option (List Nat)
  session_id : Option (List Nat)
  published_status : List Nat
  error_log : List String
  next_pid : Nat
  live : List Nat
  last_cmd : Option FfmpegCmd
  deriving DecidableEq

/-- self.sessions lookup (self.sessions[session_id], none when absent). -/
def sfind (sessions : List (List Nat × SessionRec)) (sid : List Nat) :
    Option SessionRec :=
  match sessions with
  | [] => none
  | p :: rest => if p.1 = sid then some p.2 else sfind rest sid

/-- self.sessions[session_id] = record: overwrite an existing entry or add
a new one. -/
def insertSession (sessions : List (List Nat × SessionRec)) (sid : List Nat)
    (sr : SessionRec) : List (List Nat × SessionRec) :=
  if sessions.any (fun p => p.1 == sid) then
    sessions.map fun p => if p.1 = sid then (sid, sr) else p
  else sessions ++ [(sid, sr)]

/-- self.sessions.pop(session_id), the removal part (the lookup part is
done by sfind at the call site). -/
def removeSession (sessions : List (List Nat × SessionRec)) (sid : List Nat) :
    List (List Nat × SessionRec) :=
  sessions.filter fun p => !(p.1 == sid)

/-- self.sessions[session_id]["process"] = handle: attach a process handle
to a session record, replacing (not releasing) any previous one. -/
def attachProcess (sessions : List (List Nat × SessionRec)) (sid : List Nat)
    (pid : Nat) : List (List Nat × SessionRec) :=
  sessions.map fun p =>
    if p.1 = sid then (p.1, { p.2 with process := some pid }) else p

/-! ### _start_stream, parsing phase (source lines 386 to 456)

The locals width, height, fps, video_ssrc and video_max_bitrate of the
source are assigned only inside conditional blocks; an Option none models
the never-assigned (unbound) state. -/

/-- The video codec-parameter sub-block handling of _start_stream (source
lines 393 to 398): decoded only when present and truthy; PROFILE_ID and
LEVEL are read with raising dict indexing even though their values are
unused. -/
def parseCodecParams (video_objs : List (Nat × List Nat)) : Except PyErr Unit :=
  match truthyGet video_objs 2 with
  | none => Except.ok ()
  | some vcp =>
    match tlvDecode vcp with
    | none => Except.error PyErr.structError
    | some o =>
      match tget o 1 with
      | none => Except.error PyErr.keyError
      | some _ =>
        match tget o 2 with
        | none => Except.error PyErr.keyError
        | some _ => Except.ok ()

/-- The video attributes sub-block handling of _start_stream (source lines
400 to 408): width and height are struct.unpack <H of required fields, the
frame rate struct.unpack <B. -/
def parseAttrs (video_objs : List (Nat × List Nat)) :
    Except PyErr (Option Nat × Option Nat × Option Nat) :=
  match truthyGet video_objs 3 with
  | none => Except.ok (none, none, none)
  | some vattrs =>
    match tlvDecode vattrs with
    | none => Except.error PyErr.structError
    | some ao =>
      match tget ao 1 with
      | none => Except.error PyErr.keyError
      | some wbs =>
        match unpackLEH wbs with
        | Except.error e => Except.error e
        | Except.ok w =>
          match tget ao 2 with
          | none => Except.error PyErr.keyError
          | some hbs =>
            match unpackLEH hbs with
            | Except.error e => Except.error e
            | Except.ok h =>
              match tget ao 3 with
              | none => Except.error PyErr.keyError
              | some fbs =>
                match unpackLEB fbs with
                | Except.error e => Except.error e
                | Except.ok f => Except.ok (some w, some h, some f)

/-- The video RTP-parameter sub-block handling of _start_stream (source
lines 410 to 423).  The source line `video_ssrc = 1 or struct.unpack(...)`
short-circuits, so the synchronization-source field of the request is never
read and video_ssrc is the constant 1; the MAX_BIT_RATE field is fetched
with .get and passed to struct.unpack, so its absence raises a TypeError
(unpack of None) rather than defaulting. -/
def parseVideoRtp (video_objs : List (Nat × List Nat)) :
    Except PyErr (Option Nat × Option Nat) :=
  match truthyGet video_objs 4 with
  | none => Except.ok (none, none)
  | some vrtp =>
    match tlvDecode vrtp with
    | none => Except.error PyErr.structError
    | some ro =>
      match tget ro 3 with
      | none => Except.error PyErr.typeError
      | some mbbs =>
        match unpackLEH mbbs with
        | Except.error e => Except.error e
        | Except.ok mb => Except.ok (some 1, some mb)

/-- The locals of _start_stream produced by the video block (source lines
386 to 423); a none field is a local that was never assigned. -/
structure VideoLocals where
  width : Option Nat
  height : Option Nat
  fps : Option Nat
  video_ssrc : Option Nat
  video_max_bitrate : Option Nat

/-- The whole video-block parsing phase of _start_stream. -/
def parseVideoBlock (objs : List (Nat × List Nat)) : Except PyErr VideoLocals :=
  match truthyGet objs 2 with
  | none => Except.ok ⟨none, none, none, none, none⟩
  | some video_tlv =>
    match tlvDecode video_tlv with
    | none => Except.error PyErr.structError
    | some video_objs =>
      match parseCodecParams video_objs with
      | Except.error e => Except.error e
      | Except.ok _ =>
        match parseAttrs video_objs with
        | Except.error e => Except.error e
        | Except.ok wh =>
          match parseVideoRtp video_objs with
          | Except.error e => Except.error e
          | Except.ok sb =>
            Except.ok ⟨wh.1, wh.2.1, wh.2.2, sb.1, sb.2⟩

/-- Require a list of keys to be present in a decoded mapping, raising
KeyError on the first absent one; models a run of raising dict lookups
whose values are unused. -/
def requireKeys (m : List (Nat × List Nat)) : List Nat → Except PyErr Unit
  | [] => Except.ok ()
  | t :: ts =>
    match tget m t with
    | none => Except.error PyErr.keyError
    | some _ => requireKeys m ts

/-- The audio-block handling of _start_stream (source lines 425 to 448):
every field is read with raising dict indexing and the nested codec-param
and RTP-param blocks are decoded, although none of the values feed the
command. -/
def parseAudioBlock (objs : List (Nat × List Nat)) : Except PyErr Unit :=
  match truthyGet objs 3 with
  | none => Except.ok ()
  | some audio_tlv =>
    match tlvDecode audio_tlv with
    | none => Except.error PyErr.structError
    | some ao =>
      match tget ao 1 with
      | none => Except.error PyErr.keyError
      | some _ =>
        match tget ao 2 with
        | none => Except.error PyErr.keyError
        | some acpbs =>
          match tlvDecode acpbs with
          | none => Except.error PyErr.structError
          | some acp =>
            match tget ao 3 with
            | none => Except.error PyErr.keyError
            | some arpbs =>
              match tlvDecode arpbs with
              | none => Except.error PyErr.structError
              | some arp =>
                match tget ao 4 with
                | none => Except.error PyErr.keyError
                | some _ =>
                  match requireKeys acp [1, 2, 3, 4] with
                  | Except.error e => Except.error e
                  | Except.ok _ => requireKeys arp [2, 1, 3, 4, 6]

/-- The Python idiom `x = x or default` applied to a possibly-unbound local:
reading an unbound local raises UnboundLocalError; a bound zero is falsy
and is replaced by the default. -/
def pyOr (v : Option Nat) (d : Nat) : Except PyErr Nat :=
  match v with
  | none => Except.error PyErr.unboundLocal
  | some 0 => Except.ok d
  | some n => Except.ok n

/-- The parsing and parameter-resolution phase of _start_stream (source
lines 386 to 470): parse the optional video and audio blocks, decode the
session block, look the session id up in the store (raising KeyError when
absent), apply the `or` defaults 1280, 720 and 300, clamp the frame rate to
30, and build the ffmpeg parameters.  Returns the session id together with
the command parameters. -/
def startParams (st : CameraState) (objs : List (Nat × List Nat)) :
    Except PyErr (List Nat × FfmpegParams) :=
  match parseVideoBlock objs with
  | Except.error e => Except.error e
  | Except.ok vl =>
    match parseAudioBlock objs with
    | Except.error e => Except.error e
    | Except.ok _ =>
      match tget objs 1 with
      | none => Except.error PyErr.keyError
      | some sessTlv =>
        match tlvDecode sessTlv with
        | none => Except.error PyErr.structError
        | some so =>
          match tget so 1 with
          | none => Except.error PyErr.keyError
          | some session_id =>
            match sfind st.sessions session_id with
            | none => Except.error PyErr.keyError
            | some session_info =>
              match pyOr vl.width 1280 with
              | Except.error e => Except.error e
              | Except.ok width =>
                match pyOr vl.height 720 with
                | Except.error e => Except.error e
                | Except.ok height =>
                  match pyOr vl.video_max_bitrate 300 with
                  | Except.error e => Except.error e
                  | Except.ok video_max_bitrate =>
                    match vl.fps with
                    | none => Except.error PyErr.unboundLocal
                    | some fps0 =>
                      match vl.video_ssrc with
                      | none => Except.error PyErr.unboundLocal
                      | some video_ssrc =>
                        Except.ok (session_id,
                          { address := session_info.address
                            video_port := session_info.video_port
                            video_srtp_key :=
                              session_info.video_srtp_key ++ session_info.video_srtp_salt
                            video_ssrc := video_ssrc
                            fps := min fps0 30
                            width := width
                            height := height
                            bitrate := video_max_bitrate
                            local_video_port := session_info.video_port })

/-- _start_stream (source lines 386 to 478).  On success it spawns the
external process (fresh id, added to live), attaches the handle to the
session record replacing any previous one without killing it, records the
command parameters, sets the streaming status to STREAMING and publishes
the encoded status.  The reconfigure flag is accepted and, as in the
source, never used. -/
def startStream (st : CameraState) (objs : List (Nat × List Nat))
    (reconfigure : Bool) : CameraState × Option PyErr :=
  match startParams st objs with
  | Except.error e => (st, some e)
  | Except.ok r =>
    ({ st with
        sessions := attachProcess st.sessions r.1 st.next_pid
        live := st.next_pid :: st.live
        next_pid := st.next_pid + 1
        last_cmd := some (formatCmd r.2)
        streaming_status := [1]
        published_status := tlvEncodePair 1 [1] }, none)

/-- _stop_stream (source lines 484 to 490): decode the session block, pop
the record (KeyError when the id is absent), kill the attached process if
any, and clear self.session_id.  The streaming status and the published
status value are not touched. -/
def stopStream (st : CameraState) (objs : List (Nat × List Nat)) :
    CameraState × Option PyErr :=
  match tget objs 1 with
  | none => (st, some PyErr.keyError)
  | some sessTlv =>
    match tlvDecode sessTlv with
    | none => (st, some PyErr.structError)
    | some so =>
      match tget so 1 with
      | none => (st, some PyErr.keyError)
      | some session_id =>
        match sfind st.sessions session_id with
        | none => (st, some PyErr.keyError)
        | some sr =>
          ({ st with
              sessions := removeSession st.sessions session_id
              live :=
                match sr.process with
                | some pid => st.live.erase pid
                | none => st.live
              session_id := none }, none)

/-- set_selected_stream_configuration (source lines 492 to 513): store the
raw value, decode, return early with a logged error when the session block
is absent, read the one-byte request kind (KeyError when the second
sub-field is absent, IndexError when it is empty), and dispatch on the kind
with 1 = start, 0 = stop, 4 = reconfigure; any other kind only logs an
error. -/
def set_selected_stream_configuration (st : CameraState) (value : List Nat) :
    CameraState × Option PyErr :=
  let st1 := { st with selected_config := some value }
  match tlvDecode value with
  | none => (st1, some PyErr.structError)
  | some objs =>
    match tget objs 1 with
    | none =>
      ({ st1 with error_log :=
          st1.error_log ++ ["Bad request to set selected stream configuration."] }, none)
    | some sessTlv =>
      match tlvDecode sessTlv with
      | none => (st1, some PyErr.structError)
      | some session =>
        match tget session 2 with
        | none => (st1, some PyErr.keyError)
        | some rbytes =>
          match rbytes with
          | [] => (st1, some PyErr.indexError)
          | b :: _ =>
            if b = 1 then startStream st1 objs false
            else if b = 0 then stopStream st1 objs
            else if b = 4 then startStream st1 objs true
            else ({ st1 with error_log :=
                st1.error_log ++ ["Unknown request type"] }, none)

/-! ### set_endpoints (source lines 515 to 607) -/

/-- The fields extracted from a SetupEndpoints request. -/
structure SetupReq where
  session_id : List Nat
  is_ipv6 : Nat
  address : List Nat
  target_video_port : Nat
  target_audio_port : Nat
  video_crypto_suite : Nat
  video_master_key : List Nat
  video_master_salt : List Nat
  audio_crypto_suite : Nat
  audio_master_key : List Nat
  audio_master_salt : List Nat
  deriving DecidableEq

/-- One SRTP parameter block of the request (source lines 534 to 545):
crypto suite first byte, master key, master salt, all via raising lookups. -/
def parseSrtpParams (bs : List Nat) : Except PyErr (Nat × List Nat × List Nat) :=
  match tlvDecode bs with
  | none => Except.error PyErr.structError
  | some o =>
    match tget o 1 with
    | none => Except.error PyErr.keyError
    | some cbs =>
      match byte0 cbs with
      | Except.error e => Except.error e
      | Except.ok c =>
        match tget o 2 with
        | none => Except.error PyErr.keyError
        | some key =>
          match tget o 3 with
          | none => Except.error PyErr.keyError
          | some salt => Except.ok (c, key, salt)

/-- The decode phase of set_endpoints (source lines 520 to 545): session
id, address block (version byte, textual address, the two target ports as
little-endian 16-bit) and the two SRTP parameter blocks, every required
field read with raising dict indexing. -/
def parseSetupRequest (value : List Nat) : Except PyErr SetupReq :=
  match tlvDecode value with
  | none => Except.error PyErr.structError
  | some objs =>
    match tget objs 1 with
    | none => Except.error PyErr.keyError
    | some session_id =>
      match tget objs 3 with
      | none => Except.error PyErr.keyError
      | some address_tlv =>
        match tlvDecode address_tlv with
        | none => Except.error PyErr.structError
        | some ai =>
          match tget ai 1 with
          | none => Except.error PyErr.keyError
          | some verbs =>
            match byte0 verbs with
            | Except.error e => Except.error e
            | Except.ok is_ipv6 =>
              match tget ai 2 with
              | none => Except.error PyErr.keyError
              | some address =>
                match tget ai 3 with
                | none => Except.error PyErr.keyError
                | some vpbs =>
                  match unpackLEH vpbs with
                  | Except.error e => Except.error e
                  | Except.ok target_video_port =>
                    match tget ai 4 with
                    | none => Except.error PyErr.keyError
                    | some apbs =>
                      match unpackLEH apbs with
                      | Except.error e => Except.error e
                      | Except.ok target_audio_port =>
                        match tget objs 4 with
                        | none => Except.error PyErr.keyError
                        | some vst =>
                          match parseSrtpParams vst with
                          | Except.error e => Except.error e
                          | Except.ok vp =>
                            match tget objs 5 with
                            | none => Except.error PyErr.keyError
                            | some ast =>
                              match parseSrtpParams ast with
                              | Except.error e => Except.error e
                              | Except.ok ap =>
                                Except.ok
                                  { session_id := session_id
                                    is_ipv6 := is_ipv6
                                    address := address
                                    target_video_port := target_video_port
                                    target_audio_port := target_audio_port
                                    video_crypto_suite := vp.1
                                    video_master_key := vp.2.1
                                    video_master_salt := vp.2.2
                                    audio_crypto_suite := ap.1
                                    audio_master_key := ap.2.1
                                    audio_master_salt := ap.2.2 }

/-- The SRTP blocks of the response (source lines 562 to 574): with secure
transport, echo the client master key and salt under the fixed
AES_CM_128_HMAC_SHA1_80 suite byte 0 for both streams; without it, the
fixed NO_SRTP blob for both. -/
def srtpResponseBlocks (st : CameraState) (req : SetupReq) : List Nat × List Nat :=
  if st.support_srtp then
    (tlvEncode [(1, [0]), (2, req.video_master_key), (3, req.video_master_salt)],
     tlvEncode [(1, [0]), (2, req.audio_master_key), (3, req.audio_master_salt)])
  else (NO_SRTP, NO_SRTP)

/-- The pairs of the set_endpoints response blob (source lines 576 to
592): session id, success status, own address descriptor with the echoed
target ports, the two SRTP blocks, and the constant one-byte
synchronization-source identifiers. -/
def setupResponsePairs (st : CameraState) (req : SetupReq) : List (Nat × List Nat) :=
  [(1, req.session_id), (2, [0]),
   (3, tlvEncode
      [(1, [st.stream_address_isv6]), (2, st.stream_address),
       (3, packLEH req.target_video_port), (4, packLEH req.target_audio_port)]),
   (4, (srtpResponseBlocks st req).1), (5, (srtpResponseBlocks st req).2),
   (6, [1]), (7, [1])]

/-- The response blob of set_endpoints (source lines 576 to 592). -/
def setupResponse (st : CameraState) (req : SetupReq) : List Nat :=
  tlvEncode (setupResponsePairs st req)

/-- The session record stored by set_endpoints (source lines 594 to 604);
it has no process key. -/
def newSessionRec (req : SetupReq) : SessionRec :=
  { address := req.address
    video_port := req.target_video_port
    video_srtp_key := req.video_master_key
    video_srtp_salt := req.video_master_salt
    video_ssrc := [1]
    audio_port := req.target_audio_port
    audio_srtp_key := req.audio_master_key
    audio_srtp_salt := req.audio_master_salt
    audio_ssrc := [1]
    process := none }

/-- set_endpoints (source lines 515 to 607): decode the request (every
failure escapes before any mutation), build the response, store the new
session record overwriting any record under the same id, and publish the
response on the SetupEndpoints characteristic. -/
def set_endpoints (st : CameraState) (value : List Nat) :
    CameraState × Option PyErr :=
  match parseSetupRequest value with
  | Except.error e => (st, some e)
  | Except.ok req =>
    ({ st with
        sessions := insertSession st.sessions req.session_id (newSessionRec req)
        setup_response := some (setupResponse st req) }, none)

/-! ### Capability encoders (source lines 218 to 315) -/

/-- The video capability descriptor expected by
get_supported_video_stream_config: profile and level byte strings and
(width, height, frame rate) resolution triples. -/
structure VideoParams where
  profiles : List (List Nat)
  levels : List (List Nat)
  resolutions : List (Nat × Nat × Nat)

/-- The codec-parameters sub-block (source lines 225 to 236): fixed
non-interleaved packetization mode, one entry per profile, one per level. -/
def videoCodecParamsTlv (p : VideoParams) : List Nat :=
  tlvEncodePair 3 [0]
    ++ (p.profiles.map fun pr => tlvEncodePair 1 pr).flatten
    ++ (p.levels.map fun lv => tlvEncodePair 2 lv).flatten

/-- One attributes payload per resolution triple (source lines 240 to 243):
width, height and frame rate are all packed with struct.pack <H, each a
little-endian 16-bit value. -/
def resTlv (r : Nat × Nat × Nat) : List Nat :=
  tlvEncode [(1, packLEH r.1), (2, packLEH r.2.1), (3, packLEH r.2.2)]

/-- The concatenated attributes sub-blocks (source lines 238 to 244), one
entry of type 3 per resolution triple. -/
def videoAttrTlv (rs : List (Nat × Nat × Nat)) : List Nat :=
  (rs.map fun r => tlvEncodePair 3 (resTlv r)).flatten

/-- The codec config sub-block (source lines 246 to 247): H264 codec byte
and the codec parameters. -/
def videoConfigTlv (p : VideoParams) : List Nat :=
  tlvEncode [(1, [0]), (2, videoCodecParamsTlv p)]

/-- get_supported_video_stream_config (source lines 218 to 250), base64
framing elided: the codec config and all attributes sub-blocks composed
under the single top-level type 1. -/
def get_supported_video_stream_config (p : VideoParams) : List Nat :=
  tlvEncodePair 1 (videoConfigTlv p ++ videoAttrTlv p.resolutions)

/-- One audio codec entry of the capability descriptor. -/
structure AudioCodecDesc where
  type : String
  samplerate : Nat

/-- The audio capability descriptor expected by
get_supported_audio_stream_config. -/
structure AudioParams where
  codecs : List AudioCodecDesc
  comfort_noise : Bool

/-- The codec-kind recognition of the loop (source lines 264 to 275):
only the strings OPUS and AAC-eld are accepted, both with variable bit
rate; the result is the pair of codec byte and bit-rate byte. -/
def audioCodecByte (t : String) : Option (Nat × Nat) :=
  if t = "OPUS" then some (3, 0)
  else if t = "AAC-eld" then some (2, 0)
  else none

/-- The sample-rate recognition (source lines 277 to 286). -/
def sampleRateByte (r : Nat) : Option Nat :=
  if r = 8 then some 0 else if r = 16 then some 1 else if r = 24 then some 2 else none

/-- The codec-parameters payload of one audio entry (source lines 288 to
290): one channel, bit-rate byte, sample-rate byte. -/
def audioParamTlv (bitrate samplerate : Nat) : List Nat :=
  tlvEncode [(1, [1]), (2, [bitrate]), (3, [samplerate])]

/-- The config payload of one audio entry (source lines 291 to 292). -/
def audioConfigTlv (codec bitrate samplerate : Nat) : List Nat :=
  tlvEncode [(1, [codec]), (2, audioParamTlv bitrate samplerate)]

/-- The accumulation loop of get_supported_audio_stream_config (source
lines 261 to 293).  The Boolean is the has_supported_codec flag: it is set
as soon as a recognized codec kind is seen, before the sample rate is
examined, so an entry with a recognized kind and an unrecognized rate sets
the flag yet contributes nothing. -/
def audioLoop : List AudioCodecDesc → Bool → List Nat → Bool × List Nat
  | [], flag, configs => (flag, configs)
  | c :: cs, flag, configs =>
    match audioCodecByte c.type with
    | none => audioLoop cs flag configs
    | some cb =>
      match sampleRateByte c.samplerate with
      | none => audioLoop cs true configs
      | some sr =>
        audioLoop cs true (configs ++ tlvEncodePair 1 (audioConfigTlv cb.1 cb.2 sr))

/-- The fallback entry (source lines 295 to 310): OPUS codec byte 3,
variable bit rate byte 0, 24 kHz byte 2, wrapped as one type-1 entry. -/
def fallbackConfig : List Nat :=
  tlvEncodePair 1 (audioConfigTlv 3 0 2)

/-- get_supported_audio_stream_config (source lines 252 to 315), base64
framing elided: the accumulated entries, replaced by the single fallback
entry only when the has_supported_codec flag stayed false, followed by the
comfort-noise flag field of type 2. -/
def get_supported_audio_stream_config (p : AudioParams) : List Nat :=
  let r := audioLoop p.codecs false []
  (if r.1 then r.2 else fallbackConfig)
    ++ tlvEncodePair 2 (if p.comfort_noise then [1] else [0])

/-! ### Concrete scenario used by the closed theorems -/

/-- ASCII bytes of the accessory address string 10.0.0.1. -/
def addr1 : List Nat := [49, 48, 46, 48, 46, 48, 46, 49]

/-- The state of a freshly constructed accessory with secure transport
enabled (source lines 317 to 343): Available status, empty session store,
nothing published yet. -/
def initState : CameraState :=
  { streaming_status := [0]
    support_srtp := true
    stream_address := addr1
    stream_address_isv6 := 0
    sessions := []
    selected_config := none
    setup_response := none
    session_id := none
    published_status := tlvEncodePair 1 [0]
    error_log := []
    next_pid := 0
    live := []
    last_cmd := none }

/-- Address block of the concrete setup request: IPv4 tag, one-byte
address, video port 50000, audio port 50002. -/
def setupAddrTlv : List Nat :=
  tlvEncode [(1, [0]), (2, [49]), (3, packLEH 50000), (4, packLEH 50002)]

/-- Video SRTP block of the concrete setup request. -/
def setupVideoSrtpTlv : List Nat :=
  tlvEncode [(1, [0]), (2, [10, 11]), (3, [12, 13])]

/-- Audio SRTP block of the concrete setup request. -/
def setupAudioSrtpTlv : List Nat :=
  tlvEncode [(1, [0]), (2, [20, 21]), (3, [22, 23])]

/-- A complete concrete SetupEndpoints request for session id 0x01. -/
def setupBlob : List Nat :=
  tlvEncode [(1, [1]), (3, setupAddrTlv), (4, setupVideoSrtpTlv), (5, setupAudioSrtpTlv)]

/-- The fields that parseSetupRequest extracts from setupBlob. -/
def setupReq1 : SetupReq :=
  { session_id := [1]
    is_ipv6 := 0
    address := [49]
    target_video_port := 50000
    target_audio_port := 50002
    video_crypto_suite := 0
    video_master_key := [10, 11]
    video_master_salt := [12, 13]
    audio_crypto_suite := 0
    audio_master_key := [20, 21]
    audio_master_salt := [22, 23] }

/-- The accessory state after handling setupBlob: session 0x01 configured. -/
def stConfigured : CameraState := (set_endpoints initState setupBlob).1

/-- Video attributes of the concrete start request: width and height bytes
zero (falsy, so the `or` defaults fire) and frame rate 60. -/
def attrsTlv : List Nat := tlvEncode [(1, [0, 0]), (2, [0, 0]), (3, [60])]

/-- Video RTP parameters of the concrete start request: max bit rate bytes
zero (falsy, so the `or` default fires). -/
def rtpTlv : List Nat := tlvEncode [(3, [0, 0])]

/-- Video block of the concrete start request: attributes and RTP
parameters, no codec parameters. -/
def videoTlv : List Nat := tlvEncode [(3, attrsTlv), (4, rtpTlv)]

/-- Session block requesting start (kind byte 1) for session id 0x01. -/
def sessionStartTlv : List Nat := tlvEncode [(1, [1]), (2, [1])]

/-- A complete concrete start request for session id 0x01. -/
def startBlob : List Nat := tlvEncode [(1, sessionStartTlv), (2, videoTlv)]

/-- The same request with kind byte 4, a reconfigure. -/
def reconfBlob : List Nat :=
  tlvEncode [(1, tlvEncode [(1, [1]), (2, [4])]), (2, videoTlv)]

/-- A concrete stop request (kind byte 0) for session id 0x01. -/
def stopBlob : List Nat := tlvEncodePair 1 (tlvEncode [(1, [1]), (2, [0])])

/-- A start request with no video block at all. -/
def startNoVideoBlob : List Nat := tlvEncodePair 1 sessionStartTlv

/-- A start request whose attributes sub-block is present but lacks the
IMAGE_WIDTH field. -/
def startNoWidthBlob : List Nat :=
  tlvEncode [(1, sessionStartTlv),
             (2, tlvEncode [(3, tlvEncode [(2, [0, 0]), (3, [60])]), (4, rtpTlv)])]

/-- A selected-configuration request whose session block carries the
unrecognized kind byte 9. -/
def unknownKindBlob : List Nat := tlvEncodePair 1 (tlvEncode [(1, [1]), (2, [9])])

/-- The state after setup followed by a successful start: process 0 live
and attached, status Streaming. -/
def stStreaming : CameraState :=
  (set_selected_stream_configuration stConfigured startBlob).1

/-- The state after setup, start, reconfigure: a second process spawned. -/
def stReconfigured : CameraState :=
  (set_selected_stream_configuration stStreaming reconfBlob).1

/-- The state after setup, start, stop: record removed, process killed. -/
def stStopped : CameraState :=
  (set_selected_stream_configuration stStreaming stopBlob).1

/-- The audio capability descriptor holding a recognized codec kind paired
with an unsupported sample rate. -/
def opus44 : AudioParams := { codecs := [{ type := "OPUS", samplerate := 44 }], comfort_noise := false }

/-- The audio capability descriptor of the spec test: only the unsupported
kind PCMU. -/
def pcmu8 : AudioParams := { codecs := [{ type := "PCMU", samplerate := 8 }], comfort_noise := false }

/-- A concrete video capability descriptor with one profile, one level and
one resolution triple. -/
def vp1 : VideoParams :=
  { profiles := [[0]], levels := [[0]], resolutions := [(1280, 720, 30)] }

/-- The decoded top-level mapping of startBlob. -/
def startObjs1 : List (Nat × List Nat) := [(1, sessionStartTlv), (2, videoTlv)]

/-- The format keyword arguments produced for startBlob on stConfigured:
the zero-valued fields fall back to the defaults 1280, 720 and 300, the
frame rate 60 is clamped to 30 and the synchronization source is the
constant 1 (the fps and video_ssrc arguments are then discarded by the
template, see formatCmd). -/
def cmd1 : FfmpegParams :=
  { address := [49]
    video_port := 50000
    video_srtp_key := [10, 11, 12, 13]
    video_ssrc := 1
    fps := 30
    width := 1280
    height := 720
    bitrate := 300
    local_video_port := 50000 }

/-- The command content actually handed to the collaborator for startBlob
on stConfigured: the defaults reach the width, height and bit-rate
placeholders, while the frame rate is the hard-coded 20 (the clamped
keyword argument 30 is discarded) and the synchronization source the
hard-coded 1. -/
def sent1 : FfmpegCmd := formatCmd cmd1

/-! ### Helper lemmas about the TLV codec -/

theorem tlvEncode_nil : tlvEncode [] = [] := rfl

theorem tlvEncode_cons (p : Nat × List Nat) (rest : List (Nat × List Nat)) :
    tlvEncode (p :: rest) = tlvEncodePair p.1 p.2 ++ tlvEncode rest := by
  simp [tlvEncode]

theorem tlvEncodePair_eq_of_le (t : Nat) (v : List Nat) (h : v.length ≤ 255) :
    tlvEncodePair t v = t :: v.length :: v := by
  simp [tlvEncodePair, h]

theorem tlvEncodePair_length (t : Nat) (v : List Nat) (h : v.length ≤ 255) :
    (tlvEncodePair t v).length = v.length + 2 := by
  simp [tlvEncodePair_eq_of_le t v h]

theorem tlvEncode_length (pairs : List (Nat × List Nat))
    (h : ∀ p ∈ pairs, p.2.length ≤ 255) :
    (tlvEncode pairs).length = (pairs.map fun p => p.2.length + 2).sum := by
  induction pairs with
  | nil => simp [tlvEncode]
  | cons p rest ih =>
    rw [tlvEncode_cons, List.length_append, tlvEncodePair_length p.1 p.2 (h p (by simp)),
        ih fun q hq => h q (by simp [hq])]
    simp

theorem upsert_of_not_mem (m : List (Nat × List Nat)) (t : Nat) (v : List Nat)
    (h : ∀ p ∈ m, p.1 ≠ t) : upsert m t v = m ++ [(t, v)] := by
  unfold upsert
  have hf : m.filter (fun p => !(p.1 == t)) = m := by
    apply List.filter_eq_self.mpr
    intro a ha
    simp [h a ha]
  rw [hf]

/-- Decoding the encoding of a pair list with pairwise-distinct types and
values of at most 254 bytes, starting from an arbitrary accumulator whose
keys avoid the pair types and from a previous entry shorter than 255,
appends exactly the pairs to the accumulator. -/
theorem tlvDecodeLoop_encode (pairs : List (Nat × List Nat)) :
    ∀ (fuel : Nat) (m : List (Nat × List Nat)) (prev : Option (Nat × Nat)),
      (tlvEncode pairs).length ≤ fuel →
      (∀ p ∈ pairs, p.2.length ≤ 254) →
      (∀ p ∈ m, ∀ q ∈ pairs, p.1 ≠ q.1) →
      List.Pairwise (fun a b => a.1 ≠ b.1) pairs →
      (∀ q ∈ prev, q.2 ≤ 254) →
      tlvDecodeLoop fuel (tlvEncode pairs) m prev = some (m ++ pairs) := by
  induction pairs with
  | nil =>
    intro fuel m prev _ _ _ _ _
    cases fuel <;> simp [tlvEncode, tlvDecodeLoop]
  | cons p rest ih =>
    obtain ⟨t, v⟩ := p
    intro fuel m prev hfuel hlen hm hpw hprev
    have hv : v.length ≤ 254 := hlen (t, v) (by simp)
    have henc : tlvEncode ((t, v) :: rest) = t :: v.length :: (v ++ tlvEncode rest) := by
      rw [tlvEncode_cons, tlvEncodePair_eq_of_le t v (by omega)]
      simp
    rw [henc] at hfuel ⊢
    simp only [List.length_cons, List.length_append] at hfuel
    obtain ⟨f, rfl⟩ : ∃ f, fuel = f + 1 := ⟨fuel - 1, by omega⟩
    have hle : v.length ≤ (v ++ tlvEncode rest).length := by
      simp
    have htake : (v ++ tlvEncode rest).take v.length = v := List.take_left v _
    have hdrop : (v ++ tlvEncode rest).drop v.length = tlvEncode rest := List.drop_left v _
    have hup : upsert m t v = m ++ [(t, v)] :=
      upsert_of_not_mem m t v fun q hq => hm q hq (t, v) (by simp)
    have hrec : tlvDecodeLoop f (tlvEncode rest) (m ++ [(t, v)]) (some (t, v.length)) =
        some ((m ++ [(t, v)]) ++ rest) := by
      apply ih f (m ++ [(t, v)]) (some (t, v.length))
      · omega
      · intro q hq; exact hlen q (by simp [hq])
      · intro q hq r hr
        rcases List.mem_append.mp hq with hq1 | hq1
        · exact hm q hq1 r (by simp [hr])
        · simp at hq1
          subst hq1
          exact (List.pairwise_cons.mp hpw).1 r hr
      · exact (List.pairwise_cons.mp hpw).2
      · intro q hq
        simp at hq
        subst hq
        exact hv
    cases prev with
    | none =>
      simp only [tlvDecodeLoop, if_pos hle, htake, hdrop, hup, hrec]
      simp
    | some q =>
      have hq254 : q.2 ≤ 254 := hprev q rfl
      have hcond : ¬ (q.1 = t ∧ q.2 = 255) := by
        rintro ⟨_, h2⟩
        omega
      simp only [tlvDecodeLoop, if_pos hle, htake, hdrop, hcond, if_false, hup, hrec]
      simp

/-- Decoding is a left inverse of encoding for pair lists with
pairwise-distinct types and values of at most 254 bytes. -/
theorem tlvDecode_tlvEncode (pairs : List (Nat × List Nat))
    (hlen : ∀ p ∈ pairs, p.2.length ≤ 254)
    (hkeys : List.Pairwise (fun a b => a.1 ≠ b.1) pairs) :
    tlvDecode (tlvEncode pairs) = some pairs := by
  have h := tlvDecodeLoop_encode pairs (tlvEncode pairs).length [] none le_rfl hlen
    (by simp) hkeys (by simp)
  simpa using h

theorem packLEH_length (n : Nat) : (packLEH n).length = 2 := rfl

theorem unpackLEH_packLEH (n : Nat) (h : n < 65536) :
    unpackLEH (packLEH n) = Except.ok n := by
  simp only [packLEH, unpackLEH]
  congr 1
  omega

theorem pairwise3 (a b c : List Nat) :
    List.Pairwise (fun x y => x.1 ≠ y.1) [(1, a), (2, b), (3, c)] := by
  simp [List.pairwise_cons]

theorem pairwise7 (a b c d e f g : List Nat) :
    List.Pairwise (fun x y => x.1 ≠ y.1)
      [(1, a), (2, b), (3, c), (4, d), (5, e), (6, f), (7, g)] := by
  simp [List.pairwise_cons]

/-! ### Helper lemmas about the handlers -/

theorem srtpResponseBlocks_length (st : CameraState) (req : SetupReq)
    (hvk : req.video_master_key.length ≤ 120)
    (hvs : req.video_master_salt.length ≤ 120)
    (hak : req.audio_master_key.length ≤ 120)
    (hasalt : req.audio_master_salt.length ≤ 120) :
    (srtpResponseBlocks st req).1.length ≤ 254 ∧
    (srtpResponseBlocks st req).2.length ≤ 254 := by
  unfold srtpResponseBlocks
  split
  · constructor
    · rw [tlvEncode_length _ (by
        intro q hq; simp at hq; rcases hq with rfl | rfl | rfl <;> simp <;> omega)]
      simp
      omega
    · rw [tlvEncode_length _ (by
        intro q hq; simp at hq; rcases hq with rfl | rfl | rfl <;> simp <;> omega)]
      simp
      omega
  · simp [NO_SRTP]

theorem setupResponse_decode (st : CameraState) (req : SetupReq)
    (hsid : req.session_id.length ≤ 254)
    (haddr : st.stream_address.length ≤ 241)
    (hvk : req.video_master_key.length ≤ 120)
    (hvs : req.video_master_salt.length ≤ 120)
    (hak : req.audio_master_key.length ≤ 120)
    (hasalt : req.audio_master_salt.length ≤ 120) :
    tlvDecode (setupResponse st req) = some (setupResponsePairs st req) := by
  have hblk := srtpResponseBlocks_length st req hvk hvs hak hasalt
  have haddrblk : (tlvEncode [(1, [st.stream_address_isv6]), (2, st.stream_address),
      (3, packLEH req.target_video_port), (4, packLEH req.target_audio_port)]).length ≤ 254 := by
    rw [tlvEncode_length _ (by
      intro q hq; simp at hq; rcases hq with rfl | rfl | rfl | rfl <;> simp [packLEH] <;> omega)]
    simp [packLEH]
    omega
  unfold setupResponse
  apply tlvDecode_tlvEncode
  · intro p hp
    unfold setupResponsePairs at hp
    simp only [List.mem_cons, List.not_mem_nil, or_false] at hp
    rcases hp with rfl | rfl | rfl | rfl | rfl | rfl | rfl <;> simp_all
  · unfold setupResponsePairs
    exact pairwise7 _ _ _ _ _ _ _

theorem parseVideoRtp_ssrc (vo : List (Nat × List Nat)) (r : Option Nat × Option Nat)
    (h : parseVideoRtp vo = Except.ok r) : r.1 = none ∨ r.1 = some 1 := by
  unfold parseVideoRtp at h
  rcases h4 : truthyGet vo 4 with _ | vrtp
  · simp only [h4] at h
    cases h
    exact Or.inl rfl
  · simp only [h4] at h
    rcases hd : tlvDecode vrtp with _ | ro
    · simp only [hd] at h
      cases h
    · simp only [hd] at h
      rcases hg : tget ro 3 with _ | mbbs
      · simp only [hg] at h
        cases h
      · simp only [hg] at h
        rcases hu : unpackLEH mbbs with e | mb
        · simp only [hu] at h
          cases h
        · simp only [hu] at h
          cases h
          exact Or.inr rfl

theorem parseVideoBlock_ssrc (objs : List (Nat × List Nat)) (vl : VideoLocals)
    (h : parseVideoBlock objs = Except.ok vl) :
    vl.video_ssrc = none ∨ vl.video_ssrc = some 1 := by
  unfold parseVideoBlock at h
  rcases h2 : truthyGet objs 2 with _ | video_tlv
  · simp only [h2] at h
    cases h
    exact Or.inl rfl
  · simp only [h2] at h
    rcases hd : tlvDecode video_tlv with _ | video_objs
    · simp only [hd] at h
      cases h
    · simp only [hd] at h
      rcases hc : parseCodecParams video_objs with e | u
      · simp only [hc] at h
        cases h
      · simp only [hc] at h
        rcases ha : parseAttrs video_objs with e | wh
        · simp only [ha] at h
          cases h
        · simp only [ha] at h
          rcases hr : parseVideoRtp video_objs with e | sb
          · simp only [hr] at h
            cases h
          · simp only [hr] at h
            cases h
            exact parseVideoRtp_ssrc video_objs sb hr

theorem startParams_ssrc (st : CameraState) (objs : List (Nat × List Nat))
    (sid : List Nat) (cmd : FfmpegParams)
    (h : startParams st objs = Except.ok (sid, cmd)) : cmd.video_ssrc = 1 := by
  unfold startParams at h
  rcases hvl : parseVideoBlock objs with e | vl
  · simp only [hvl] at h
    cases h
  · simp only [hvl] at h
    rcases ha : parseAudioBlock objs with e | u
    · simp only [ha] at h
      cases h
    · simp only [ha] at h
      rcases h1 : tget objs 1 with _ | sessTlv
      · simp only [h1] at h
        cases h
      · simp only [h1] at h
        rcases hd : tlvDecode sessTlv with _ | so
        · simp only [hd] at h
          cases h
        · simp only [hd] at h
          rcases hs1 : tget so 1 with _ | session_id
          · simp only [hs1] at h
            cases h
          · simp only [hs1] at h
            rcases hf : sfind st.sessions session_id with _ | session_info
            · simp only [hf] at h
              cases h
            · simp only [hf] at h
              rcases hw : pyOr vl.width 1280 with e | width
              · simp only [hw] at h
                cases h
              · simp only [hw] at h
                rcases hh : pyOr vl.height 720 with e | height
                · simp only [hh] at h
                  cases h
                · simp only [hh] at h
                  rcases hb : pyOr vl.video_max_bitrate 300 with e | video_max_bitrate
                  · simp only [hb] at h
                    cases h
                  · simp only [hb] at h
                    rcases hfps : vl.fps with _ | fps0
                    · simp only [hfps] at h
                      cases h
                    · simp only [hfps] at h
                      rcases hss : vl.video_ssrc with _ | video_ssrc
                      · simp only [hss] at h
                        cases h
                      · simp only [hss] at h
                        cases h
                        rcases parseVideoBlock_ssrc objs vl hvl with h' | h'
                        · rw [hss] at h'
                          cases h'
                        · rw [hss] at h'
                          exact Option.some.inj h'

/-- When no codec entry of the descriptor has a recognized kind, the
accumulation loop changes nothing: the flag stays as given and no entry is
appended. -/
theorem audioLoop_unrecognized (cs : List AudioCodecDesc) (flag : Bool) (acc : List Nat)
    (h : ∀ c ∈ cs, c.type ≠ "OPUS" ∧ c.type ≠ "AAC-eld") :
    audioLoop cs flag acc = (flag, acc) := by
  induction cs with
  | nil => rfl
  | cons c cs ih =>
    have hc := h c (by simp)
    simp only [audioLoop, audioCodecByte, if_neg hc.1, if_neg hc.2]
    exact ih fun d hd => h d (by simp [hd])

/-! ### Claim theorems -/

/-- Claim C1 (code_bug): the claim says an unknown session id in a
start, reconfigure or stop request is a handled client-protocol error,
never a crash.  The code instead indexes the session store directly, so a
stop repeated for an id already removed from the store (stStopped has
session 0x01 removed by the preceding stop) raises a KeyError that escapes
set_selected_stream_configuration, and so does a start for an id that was
never set up. -/
theorem c1_unknown_session_keyerror :
    (set_selected_stream_configuration stStopped stopBlob).2 = some PyErr.keyError ∧
    (set_selected_stream_configuration initState startBlob).2 = some PyErr.keyError ∧
    stStopped.sessions = [] := by decide

/-- Claim C2 (code_bug): the claim says a reconfigure releases the old
process handle, keeping at most one live process per session id.  In the
code _start_stream ignores its reconfigure flag and overwrites the stored
handle without killing the old process: after setup, start, reconfigure,
both spawned processes 0 and 1 are still live while the record holds only
process 1. -/
theorem c2_reconfigure_two_live_processes :
    stStreaming.live = [0] ∧
    stReconfigured.live = [1, 0] ∧
    (sfind stReconfigured.sessions [1]).map SessionRec.process = some (some 1) ∧
    (set_selected_stream_configuration stStreaming reconfBlob).2 = none := by decide

/-- Claim C3 (code_bug): the claim says a setup-endpoints request with a
missing required field fails closed with a structured error and no thrown
exception.  The code reads every required field with raising dict
indexing, so an empty request, one with only a session id, and one missing
only the SRTP parameter blocks all raise a KeyError that escapes
set_endpoints; no session record is created. -/
theorem c3_setup_missing_field_keyerror :
    (set_endpoints initState []).2 = some PyErr.keyError ∧
    (set_endpoints initState []).1 = initState ∧
    (set_endpoints initState (tlvEncode [(1, [1])])).2 = some PyErr.keyError ∧
    (set_endpoints initState (tlvEncode [(1, [1]), (3, setupAddrTlv)])).2 =
      some PyErr.keyError ∧
    (set_endpoints initState (tlvEncode [(1, [1]), (3, setupAddrTlv)])).1 = initState := by
  decide

/-- Claim C4 counterexample: for the descriptor holding only OPUS at the
unsupported rate 44, zero codec entries remain after filtering, yet the
encoder does not synthesize the fallback entry: the advertisement is just
the comfort-noise field bytes 2, 1, 0 with no codec entry, because the
has_supported_codec flag was already set by the recognized kind. -/
theorem c4_zero_entries_counterexample :
    (audioLoop opus44.codecs false []).1 = true ∧
    (audioLoop opus44.codecs false []).2 = [] ∧
    get_supported_audio_stream_config opus44 = [2, 1, 0] ∧
    get_supported_audio_stream_config opus44 ≠
      fallbackConfig ++ tlvEncodePair 2 [0] := by decide

/-- Claim C4 as amended: the fallback is keyed on codec kind alone.  When
no codec entry has a recognized kind (OPUS or AAC-eld), the encoder
synthesizes exactly one fallback entry: OPUS (byte 3), variable bit rate
(byte 0), 24 kHz (byte 2), followed by the comfort-noise field. -/
theorem c4_fallback_on_kind (p : AudioParams)
    (h : ∀ c ∈ p.codecs, c.type ≠ "OPUS" ∧ c.type ≠ "AAC-eld") :
    get_supported_audio_stream_config p =
      tlvEncodePair 1 (audioConfigTlv 3 0 2) ++
      tlvEncodePair 2 (if p.comfort_noise then [1] else [0]) := by
  unfold get_supported_audio_stream_config
  rw [audioLoop_unrecognized p.codecs false [] h]
  simp [fallbackConfig]

/-- Witness for c4_fallback_on_kind at the descriptor of the spec test,
holding only the unsupported kind PCMU. -/
theorem c4_fallback_on_kind_witness :
    (∀ c ∈ pcmu8.codecs, c.type ≠ "OPUS" ∧ c.type ≠ "AAC-eld") ∧
    get_supported_audio_stream_config pcmu8 =
      tlvEncodePair 1 (audioConfigTlv 3 0 2) ++
      tlvEncodePair 2 (if pcmu8.comfort_noise then [1] else [0]) :=
  ⟨by decide, c4_fallback_on_kind pcmu8 (by decide)⟩

/-- Claim C5 (code_bug): the claim says absent width, height or bit-rate
fields default to 1280, 720 and 300 in the parameters handed to the media
sender, and the frame rate is clamped to at most 30.  In the code the
`or` defaults apply only to fields that are present with value zero: a
start request for a configured session with no video block raises
UnboundLocalError, and one whose attributes block lacks the width field
raises KeyError.  For the concrete start request carrying zero-valued
width, height and bit rate with frame rate 60, the defaults 1280, 720 and
300 do reach the command placeholders, and the clamp min with 30 is
applied — but only to a keyword argument the template discards: the
command actually handed to the collaborator hard-codes frame rate 20, so
the clamped value never reaches the media sender. -/
theorem c5_defaults_and_clamp :
    (set_selected_stream_configuration stConfigured startNoVideoBlob).2 =
      some PyErr.unboundLocal ∧
    (set_selected_stream_configuration stConfigured startNoWidthBlob).2 =
      some PyErr.keyError ∧
    startParams stConfigured startObjs1 = Except.ok ([1], cmd1) ∧
    cmd1.fps = 30 ∧
    stStreaming.last_cmd = some sent1 ∧
    sent1.width = 1280 ∧ sent1.height = 720 ∧ sent1.bitrate = 300 ∧
    sent1.framerate = 20 := by
  decide

/-- Claim C6: for every setup-endpoints request that decodes, the response
blob decodes back to its seven fields; with secure transport the video and
audio SRTP parameter blocks each decode to the fixed AES-CM-128 suite byte
0 together with the client master key and salt echoed byte-exact, and
without secure transport both blocks are the fixed NO_SRTP sentinel. -/
theorem c6_srtp_echo (st : CameraState) (value : List Nat) (req : SetupReq)
    (hp : parseSetupRequest value = Except.ok req)
    (hsid : req.session_id.length ≤ 254)
    (haddr : st.stream_address.length ≤ 241)
    (hvk : req.video_master_key.length ≤ 120)
    (hvs : req.video_master_salt.length ≤ 120)
    (hak : req.audio_master_key.length ≤ 120)
    (hasalt : req.audio_master_salt.length ≤ 120) :
    (set_endpoints st value).1.setup_response = some (setupResponse st req) ∧
    tlvDecode (setupResponse st req) = some (setupResponsePairs st req) ∧
    tget (setupResponsePairs st req) 4 = some (srtpResponseBlocks st req).1 ∧
    tget (setupResponsePairs st req) 5 = some (srtpResponseBlocks st req).2 ∧
    (st.support_srtp = true →
      tlvDecode (srtpResponseBlocks st req).1 =
        some [(1, [0]), (2, req.video_master_key), (3, req.video_master_salt)] ∧
      tlvDecode (srtpResponseBlocks st req).2 =
        some [(1, [0]), (2, req.audio_master_key), (3, req.audio_master_salt)]) ∧
    (st.support_srtp = false →
      (srtpResponseBlocks st req).1 = NO_SRTP ∧
      (srtpResponseBlocks st req).2 = NO_SRTP) := by
  refine ⟨by simp [set_endpoints, hp],
    setupResponse_decode st req hsid haddr hvk hvs hak hasalt,
    by simp [setupResponsePairs, tget], by simp [setupResponsePairs, tget], ?_, ?_⟩
  · intro hs
    constructor
    · simp only [srtpResponseBlocks, hs, if_true]
      apply tlvDecode_tlvEncode
      · intro q hq
        simp at hq
        rcases hq with rfl | rfl | rfl <;> simp <;> omega
      · exact pairwise3 _ _ _
    · simp only [srtpResponseBlocks, hs, if_true]
      apply tlvDecode_tlvEncode
      · intro q hq
        simp at hq
        rcases hq with rfl | rfl | rfl <;> simp <;> omega
      · exact pairwise3 _ _ _
  · intro hs
    simp [srtpResponseBlocks, hs]

/-- Witness for c6_srtp_echo at the concrete setup request. -/
theorem c6_srtp_echo_witness :
    parseSetupRequest setupBlob = Except.ok setupReq1 ∧
    ((set_endpoints initState setupBlob).1.setup_response =
        some (setupResponse initState setupReq1) ∧
      tlvDecode (setupResponse initState setupReq1) =
        some (setupResponsePairs initState setupReq1) ∧
      tget (setupResponsePairs initState setupReq1) 4 =
        some (srtpResponseBlocks initState setupReq1).1 ∧
      tget (setupResponsePairs initState setupReq1) 5 =
        some (srtpResponseBlocks initState setupReq1).2 ∧
      (initState.support_srtp = true →
        tlvDecode (srtpResponseBlocks initState setupReq1).1 =
          some [(1, [0]), (2, setupReq1.video_master_key),
                (3, setupReq1.video_master_salt)] ∧
        tlvDecode (srtpResponseBlocks initState setupReq1).2 =
          some [(1, [0]), (2, setupReq1.audio_master_key),
                (3, setupReq1.audio_master_salt)]) ∧
      (initState.support_srtp = false →
        (srtpResponseBlocks initState setupReq1).1 = NO_SRTP ∧
        (srtpResponseBlocks initState setupReq1).2 = NO_SRTP)) :=
  ⟨by decide, c6_srtp_echo initState setupBlob setupReq1 (by decide) (by decide)
    (by decide) (by decide) (by decide) (by decide) (by decide)⟩

/-- Claim C7: a selected-stream-configuration request whose session block
carries a request-kind byte outside 0, 1 and 4 logs an unsupported-request
error and changes no state: the session store, the streaming status, the
published status value, the live process set and the last command are
exactly as before, and no exception escapes. -/
theorem c7_unknown_kind_no_state_change (st : CameraState) (value : List Nat)
    (objs session : List (Nat × List Nat)) (sessTlv : List Nat) (b : Nat) (bs : List Nat)
    (h1 : tlvDecode value = some objs)
    (h2 : tget objs 1 = some sessTlv)
    (h3 : tlvDecode sessTlv = some session)
    (h4 : tget session 2 = some (b :: bs))
    (h5 : b ≠ 0) (h6 : b ≠ 1) (h7 : b ≠ 4) :
    (set_selected_stream_configuration st value).1.sessions = st.sessions ∧
    (set_selected_stream_configuration st value).1.streaming_status = st.streaming_status ∧
    (set_selected_stream_configuration st value).1.published_status = st.published_status ∧
    (set_selected_stream_configuration st value).1.live = st.live ∧
    (set_selected_stream_configuration st value).1.last_cmd = st.last_cmd ∧
    (set_selected_stream_configuration st value).2 = none ∧
    (set_selected_stream_configuration st value).1.error_log =
      st.error_log ++ ["Unknown request type"] := by
  simp [set_selected_stream_configuration, h1, h2, h3, h4, h5, h6, h7]

/-- Witness for c7_unknown_kind_no_state_change at the concrete request
with kind byte 9. -/
theorem c7_unknown_kind_witness :
    tlvDecode unknownKindBlob = some [(1, [1, 1, 1, 2, 1, 9])] ∧
    ((set_selected_stream_configuration stConfigured unknownKindBlob).1.sessions =
        stConfigured.sessions ∧
      (set_selected_stream_configuration stConfigured unknownKindBlob).1.streaming_status =
        stConfigured.streaming_status ∧
      (set_selected_stream_configuration stConfigured unknownKindBlob).1.published_status =
        stConfigured.published_status ∧
      (set_selected_stream_configuration stConfigured unknownKindBlob).1.live =
        stConfigured.live ∧
      (set_selected_stream_configuration stConfigured unknownKindBlob).1.last_cmd =
        stConfigured.last_cmd ∧
      (set_selected_stream_configuration stConfigured unknownKindBlob).2 = none ∧
      (set_selected_stream_configuration stConfigured unknownKindBlob).1.error_log =
        stConfigured.error_log ++ ["Unknown request type"]) :=
  ⟨by decide, c7_unknown_kind_no_state_change stConfigured unknownKindBlob
    [(1, [1, 1, 1, 2, 1, 9])] [(1, [1]), (2, [9])] [1, 1, 1, 2, 1, 9] 9 []
    (by decide) (by decide) (by decide) (by decide) (by decide) (by decide) (by decide)⟩

/-- Claim C8 counterexample: the claim says each attributes sub-block
encodes the frame rate as a single byte.  For the resolution triple 1280
by 720 at 30, the decoded attributes payload carries the frame-rate value
as the two bytes 30, 0 (struct.pack <H), so no single-byte frame-rate
value can match. -/
theorem c8_framerate_counterexample :
    tlvDecode (resTlv (1280, 720, 30)) =
      some [(1, [0, 5]), (2, [208, 2]), (3, [30, 0])] ∧
    ¬ ∃ fr : Nat, tlvDecode (resTlv (1280, 720, 30)) =
        some [(1, [0, 5]), (2, [208, 2]), (3, [fr])] := by
  have hd : tlvDecode (resTlv (1280, 720, 30)) =
      some [(1, [0, 5]), (2, [208, 2]), (3, [30, 0])] := by decide
  refine ⟨hd, ?_⟩
  rintro ⟨fr, h⟩
  rw [hd] at h
  simp at h

/-- Claim C8 as amended: each attributes sub-block encodes the width, the
height and also the frame rate as little-endian 16-bit values (two bytes
each, recovered exactly by the 16-bit unpack), and the whole advertisement
is composed under the single top-level list-item type 1. -/
theorem c8_attr_blocks_le16 (p : VideoParams)
    (hres : ∀ r ∈ p.resolutions, r.1 < 65536 ∧ r.2.1 < 65536 ∧ r.2.2 < 65536) :
    get_supported_video_stream_config p =
      tlvEncodePair 1 (videoConfigTlv p ++ videoAttrTlv p.resolutions) ∧
    videoAttrTlv p.resolutions =
      (p.resolutions.map fun r => tlvEncodePair 3 (resTlv r)).flatten ∧
    ∀ r ∈ p.resolutions,
      tlvDecode (resTlv r) =
        some [(1, packLEH r.1), (2, packLEH r.2.1), (3, packLEH r.2.2)] ∧
      (packLEH r.1).length = 2 ∧ (packLEH r.2.1).length = 2 ∧
      (packLEH r.2.2).length = 2 ∧
      unpackLEH (packLEH r.1) = Except.ok r.1 ∧
      unpackLEH (packLEH r.2.1) = Except.ok r.2.1 ∧
      unpackLEH (packLEH r.2.2) = Except.ok r.2.2 := by
  refine ⟨rfl, rfl, fun r hr => ?_⟩
  obtain ⟨hw, hh, hf⟩ := hres r hr
  refine ⟨?_, rfl, rfl, rfl, unpackLEH_packLEH r.1 hw, unpackLEH_packLEH r.2.1 hh,
    unpackLEH_packLEH r.2.2 hf⟩
  unfold resTlv
  apply tlvDecode_tlvEncode
  · intro q hq
    simp at hq
    rcases hq with rfl | rfl | rfl <;> simp [packLEH]
  · exact pairwise3 _ _ _

/-- Witness for c8_attr_blocks_le16 at the concrete one-resolution
descriptor. -/
theorem c8_attr_blocks_le16_witness :
    (∀ r ∈ vp1.resolutions, r.1 < 65536 ∧ r.2.1 < 65536 ∧ r.2.2 < 65536) ∧
    (get_supported_video_stream_config vp1 =
        tlvEncodePair 1 (videoConfigTlv vp1 ++ videoAttrTlv vp1.resolutions) ∧
      videoAttrTlv vp1.resolutions =
        (vp1.resolutions.map fun r => tlvEncodePair 3 (resTlv r)).flatten ∧
      ∀ r ∈ vp1.resolutions,
        tlvDecode (resTlv r) =
          some [(1, packLEH r.1), (2, packLEH r.2.1), (3, packLEH r.2.2)] ∧
        (packLEH r.1).length = 2 ∧ (packLEH r.2.1).length = 2 ∧
        (packLEH r.2.2).length = 2 ∧
        unpackLEH (packLEH r.1) = Except.ok r.1 ∧
        unpackLEH (packLEH r.2.1) = Except.ok r.2.1 ∧
        unpackLEH (packLEH r.2.2) = Except.ok r.2.2) :=
  ⟨by decide, c8_attr_blocks_le16 vp1 (by decide)⟩

/-- Claim C9: the stop handler never touches the streaming-status value or
the published StreamingStatus blob, nor any field other than the session
store, the live process set and the accessory session_id; concretely,
after a successful start followed by a stop the published status still
reads Streaming. -/
theorem c9_stop_preserves_status :
    (∀ (st : CameraState) (objs : List (Nat × List Nat)),
      (stopStream st objs).1.streaming_status = st.streaming_status ∧
      (stopStream st objs).1.published_status = st.published_status ∧
      (stopStream st objs).1.selected_config = st.selected_config ∧
      (stopStream st objs).1.setup_response = st.setup_response ∧
      (stopStream st objs).1.support_srtp = st.support_srtp ∧
      (stopStream st objs).1.stream_address = st.stream_address ∧
      (stopStream st objs).1.stream_address_isv6 = st.stream_address_isv6 ∧
      (stopStream st objs).1.error_log = st.error_log ∧
      (stopStream st objs).1.next_pid = st.next_pid ∧
      (stopStream st objs).1.last_cmd = st.last_cmd) ∧
    stStopped.streaming_status = [1] ∧
    stStopped.published_status = tlvEncodePair 1 [1] ∧
    (set_selected_stream_configuration stStreaming stopBlob).2 = none := by
  refine ⟨fun st objs => ?_, by decide, by decide, by decide⟩
  unfold stopStream
  repeat' split
  all_goals exact ⟨rfl, rfl, rfl, rfl, rfl, rfl, rfl, rfl, rfl, rfl⟩

/-- Claim C10: the endpoint negotiator answers with the constant one-byte
synchronization source 1 in both the video and the audio field of every
response, and every start or reconfigure command hands the media sender
the constant synchronization source 1 no matter what the request carried. -/
theorem c10_constant_ssrc :
    (∀ (st : CameraState) (value : List Nat) (req : SetupReq),
        parseSetupRequest value = Except.ok req →
        req.session_id.length ≤ 254 →
        st.stream_address.length ≤ 241 →
        req.video_master_key.length ≤ 120 →
        req.video_master_salt.length ≤ 120 →
        req.audio_master_key.length ≤ 120 →
        req.audio_master_salt.length ≤ 120 →
        (set_endpoints st value).1.setup_response = some (setupResponse st req) ∧
        tlvDecode (setupResponse st req) = some (setupResponsePairs st req) ∧
        tget (setupResponsePairs st req) 6 = some [1] ∧
        tget (setupResponsePairs st req) 7 = some [1]) ∧
    (∀ (st : CameraState) (objs : List (Nat × List Nat)) (sid : List Nat)
        (cmd : FfmpegParams),
        startParams st objs = Except.ok (sid, cmd) → cmd.video_ssrc = 1) := by
  constructor
  · intro st value req hp hsid haddr hvk hvs hak hasalt
    exact ⟨by simp [set_endpoints, hp],
      setupResponse_decode st req hsid haddr hvk hvs hak hasalt,
      by simp [setupResponsePairs, tget], by simp [setupResponsePairs, tget]⟩
  · exact startParams_ssrc

/-- Witness for c10_constant_ssrc at the concrete setup and start
requests. -/
theorem c10_constant_ssrc_witness :
    parseSetupRequest setupBlob = Except.ok setupReq1 ∧
    tget (setupResponsePairs initState setupReq1) 6 = some [1] ∧
    tget (setupResponsePairs initState setupReq1) 7 = some [1] ∧
    startParams stConfigured startObjs1 = Except.ok ([1], cmd1) ∧
    cmd1.video_ssrc = 1 :=
  ⟨by decide,
   (c10_constant_ssrc.1 initState setupBlob setupReq1 (by decide) (by decide) (by decide)
      (by decide) (by decide) (by decide) (by decide)).2.2.1,
   (c10_constant_ssrc.1 initState setupBlob setupReq1 (by decide) (by decide) (by decide)
      (by decide) (by decide) (by decide) (by decide)).2.2.2,
   by decide,
   c10_constant_ssrc.2 stConfigured startObjs1 [1] cmd1 (by decide)⟩

end Camera
